import Mathlib

/-!
Shallow embedding of the Gazebo RealSense plugin (`src/gzrs/gzrs_plugin.cc`)
and verification of the specified properties of its depth pipeline.

Modelling conventions:
* C++ `float`/`double` depth samples and clip constants are idealized as exact
  rationals (`ℚ`); arithmetic and comparisons are exact.
* `uint16_t` storage is `ℕ` with an explicit `% 65536` where the code casts.
* `std::vector<uint16_t>` is `List ℕ`; `resize` truncates or zero-pads.
* The possibility that `std::vector::resize` throws `std::bad_alloc`
  (caught in `OnNewDepthFrame`) is an explicit `allocOk : Bool` oracle.
* `world->GetSimTime()` is an external clock, modelled as a function
  `clock : ℕ → ℕ` from the index of the `GetSimTime` call made within one
  callback to the time it returns; the code calls it twice per depth frame.
* Publishing is fire-and-forget: a callback returns the list of messages it
  handed to its publishers, tagged with the publishing channel.
-/

namespace GzRS

/-- Constant `DEPTH_NEAR_CLIP_M` (0.3 m) from `gzrs_plugin.cc` line 37. -/
def DEPTH_NEAR_CLIP_M : ℚ := 3/10

/-- Constant `DEPTH_FAR_CLIP_M` (10.0 m) from `gzrs_plugin.cc` line 38. -/
def DEPTH_FAR_CLIP_M : ℚ := 10

/-- Constant `DEPTH_SCALE_M` (0.001 m per unit) from `gzrs_plugin.cc` line 39. -/
def DEPTH_SCALE_M : ℚ := 1/1000

/-- `UINT16_MAX` as used in the overflow guard of the conversion loop. -/
def UINT16_MAX : ℕ := 65535

/-- One iteration of the conversion loop of `RealSensePlugin::OnNewDepthFrame`
(`gzrs_plugin.cc` lines 311–326): clipping/overflow guard in source order
(near, far, overflow, negative), else `(uint16_t)(v / DEPTH_SCALE_M)`, the
truncating cast modelled as floor followed by reduction into 16-bit range. -/
def encodeSample (v : ℚ) : ℕ :=
  if v < DEPTH_NEAR_CLIP_M ∨ v > DEPTH_FAR_CLIP_M ∨
      v > DEPTH_SCALE_M * (UINT16_MAX : ℚ) ∨ v < 0 then
    0
  else
    (⌊v / DEPTH_SCALE_M⌋).toNat % 65536

/-- The far clip is below the fixed-point overflow threshold, so the overflow
guard is redundant given the far-clip guard. -/
lemma far_le_scale_max : DEPTH_FAR_CLIP_M ≤ DEPTH_SCALE_M * (UINT16_MAX : ℚ) := by
  norm_num [DEPTH_FAR_CLIP_M, DEPTH_SCALE_M, UINT16_MAX]

/-- The clipping guard fails exactly on samples inside `[NEAR_CLIP, FAR_CLIP]`. -/
lemma not_clipped_iff {v : ℚ} :
    ¬(v < DEPTH_NEAR_CLIP_M ∨ v > DEPTH_FAR_CLIP_M ∨
        v > DEPTH_SCALE_M * (UINT16_MAX : ℚ) ∨ v < 0) ↔
      DEPTH_NEAR_CLIP_M ≤ v ∧ v ≤ DEPTH_FAR_CLIP_M := by
  constructor
  · intro h
    push_neg at h
    exact ⟨h.1, h.2.1⟩
  · rintro ⟨h1, h2⟩
    push_neg
    have h0 : (0 : ℚ) ≤ v := le_trans (by norm_num [DEPTH_NEAR_CLIP_M]) h1
    exact ⟨h1, h2, le_trans h2 far_le_scale_max, h0⟩

/-- For an in-range sample, the scaled floor lies in `[300, 10000]`. -/
lemma floor_scaled_bounds {v : ℚ} (h1 : DEPTH_NEAR_CLIP_M ≤ v)
    (h2 : v ≤ DEPTH_FAR_CLIP_M) :
    300 ≤ (⌊v / DEPTH_SCALE_M⌋).toNat ∧ (⌊v / DEPTH_SCALE_M⌋).toNat ≤ 10000 := by
  unfold DEPTH_NEAR_CLIP_M at h1
  unfold DEPTH_FAR_CLIP_M at h2
  have hdiv : v / DEPTH_SCALE_M = v * 1000 := by
    unfold DEPTH_SCALE_M
    rw [one_div, div_inv_eq_mul]
  have h300 : (300 : ℤ) ≤ ⌊v / DEPTH_SCALE_M⌋ := by
    rw [Int.le_floor, hdiv]
    push_cast
    linarith
  have h10k : ⌊v / DEPTH_SCALE_M⌋ ≤ (10000 : ℤ) := by
    have h := Int.floor_le_floor (α := ℚ) (show v / DEPTH_SCALE_M ≤ 10000 by
      rw [hdiv]; linarith)
    simpa using h
  constructor
  · rw [Int.le_toNat (le_trans (by norm_num) h300)]
    exact_mod_cast h300
  · rw [Int.toNat_le]
    exact_mod_cast h10k

/-- A sample that passes the clipping guard encodes to its scaled floor, which
lies in `[300, 10000]`; in particular the 16-bit reduction does nothing. -/
lemma encodeSample_not_clipped {v : ℚ} (h1 : DEPTH_NEAR_CLIP_M ≤ v)
    (h2 : v ≤ DEPTH_FAR_CLIP_M) :
    encodeSample v = (⌊v / DEPTH_SCALE_M⌋).toNat ∧
      300 ≤ encodeSample v ∧ encodeSample v ≤ 10000 := by
  have hb := floor_scaled_bounds h1 h2
  have he : encodeSample v = (⌊v / DEPTH_SCALE_M⌋).toNat := by
    unfold encodeSample
    rw [if_neg (not_clipped_iff.2 ⟨h1, h2⟩)]
    exact Nat.mod_eq_of_lt (lt_of_le_of_lt hb.2 (by norm_num))
  exact ⟨he, he ▸ hb.1, he ▸ hb.2⟩

/-- A clipped or out-of-range sample encodes to 0. -/
lemma encodeSample_clipped {v : ℚ}
    (h : v < DEPTH_NEAR_CLIP_M ∨ v > DEPTH_FAR_CLIP_M ∨
        v > DEPTH_SCALE_M * (UINT16_MAX : ℚ) ∨ v < 0) :
    encodeSample v = 0 := by
  unfold encodeSample
  exact if_pos h

/-- Evaluation helper: an in-range sample with a known scaled floor. -/
lemma encodeSample_val {v : ℚ} {k : ℕ} (h1 : DEPTH_NEAR_CLIP_M ≤ v)
    (h2 : v ≤ DEPTH_FAR_CLIP_M) (hk : ⌊v / DEPTH_SCALE_M⌋ = (k : ℤ)) :
    encodeSample v = k := by
  rw [(encodeSample_not_clipped h1 h2).1, hk, Int.toNat_natCast]

/-- Every encoder output is 0 or lies in `[300, 10000]`. -/
lemma encodeSample_range (v : ℚ) :
    encodeSample v = 0 ∨ (300 ≤ encodeSample v ∧ encodeSample v ≤ 10000) := by
  by_cases hc : v < DEPTH_NEAR_CLIP_M ∨ v > DEPTH_FAR_CLIP_M ∨
      v > DEPTH_SCALE_M * (UINT16_MAX : ℚ) ∨ v < 0
  · exact Or.inl (encodeSample_clipped hc)
  · have hn := not_clipped_iff.1 hc
    exact Or.inr (encodeSample_not_clipped hn.1 hn.2).2

/-- Claim C1: for every depth sample `v`, the encoder output is 0 iff
`v < 0 ∨ v < NEAR_CLIP ∨ v > FAR_CLIP ∨ v > SCALE * 65535`; otherwise the
output equals `⌊v / SCALE⌋` cast to an unsigned 16-bit integer. The encoder is
a total function, so no error is raised for out-of-range input. -/
theorem C1_encoder_spec (v : ℚ) :
    (encodeSample v = 0 ↔
        (v < 0 ∨ v < DEPTH_NEAR_CLIP_M ∨ v > DEPTH_FAR_CLIP_M ∨
          v > DEPTH_SCALE_M * (UINT16_MAX : ℚ))) ∧
      encodeSample v =
        if v < 0 ∨ v < DEPTH_NEAR_CLIP_M ∨ v > DEPTH_FAR_CLIP_M ∨
            v > DEPTH_SCALE_M * (UINT16_MAX : ℚ) then 0
        else (⌊v / DEPTH_SCALE_M⌋).toNat := by
  by_cases hc : v < DEPTH_NEAR_CLIP_M ∨ v > DEPTH_FAR_CLIP_M ∨
      v > DEPTH_SCALE_M * (UINT16_MAX : ℚ) ∨ v < 0
  · have h0 := encodeSample_clipped hc
    have hc' : v < 0 ∨ v < DEPTH_NEAR_CLIP_M ∨ v > DEPTH_FAR_CLIP_M ∨
        v > DEPTH_SCALE_M * (UINT16_MAX : ℚ) := by tauto
    exact ⟨⟨fun _ => hc', fun _ => h0⟩, by rw [if_pos hc', h0]⟩
  · have hn := not_clipped_iff.1 hc
    have h := encodeSample_not_clipped hn.1 hn.2
    have hc' : ¬(v < 0 ∨ v < DEPTH_NEAR_CLIP_M ∨ v > DEPTH_FAR_CLIP_M ∨
        v > DEPTH_SCALE_M * (UINT16_MAX : ℚ)) := fun habs => hc (by tauto)
    constructor
    · constructor
      · intro h0
        exact absurd h.2.1 (by omega)
      · intro habs
        exact absurd habs hc'
    · rw [if_neg hc', h.1]

/-- Pixel format tags placed into `image.pixel_format` by the plugin
(`common::Image::R_FLOAT32`, `common::Image::L_INT16`, or the value of
`ConvertPixelFormat(cam->ImageFormat())` for the color/infrared paths). -/
inductive PixelFormat where
  | R_FLOAT32 : PixelFormat
  | L_INT16 : PixelFormat
  | converted : String → PixelFormat
  deriving DecidableEq, Inhabited

/-- Payload of a published image message: the raw float depth map for the
view stream, 16-bit samples for the device stream, raw bytes otherwise. -/
inductive ImagePayload where
  | floats : List ℚ → ImagePayload
  | u16s : List ℕ → ImagePayload
  | raw : List ℕ → ImagePayload
  deriving DecidableEq, Inhabited

/-- A `msgs::ImageStamped` as filled in by the plugin: simulation timestamp,
image geometry, pixel format, row stride (`set_step`), declared byte count of
the data (`set_data`'s second argument), and the copied payload. -/
structure ImageStamped where
  time : ℕ
  width : ℕ
  height : ℕ
  pixel_format : PixelFormat
  step : ℕ
  dataLen : ℕ
  payload : ImagePayload
  deriving DecidableEq, Inhabited

/-- The depth camera handle: geometry, native bytes-per-pixel (`ImageDepth()`)
and the float depth buffer returned by `DepthData()`. -/
structure DepthCamera where
  imageWidth : ℕ
  imageHeight : ℕ
  imageDepth : ℕ
  depthData : List ℚ
  deriving DecidableEq, Inhabited

/-- A color/infrared camera handle as consumed by `OnNewFrame`. -/
structure Camera where
  imageWidth : ℕ
  imageHeight : ℕ
  imageDepth : ℕ
  imageFormat : String
  imageData : List ℕ
  deriving DecidableEq, Inhabited

/-- The plugin-owned mutable state touched by `OnNewDepthFrame`: the single
reusable device depth buffer `dataPtr->depthMap` (`std::vector<uint16_t>`). -/
structure PluginState where
  depthMap : List ℕ
  deriving DecidableEq, Inhabited

/-- `std::vector::resize n`: truncate to `n` elements or pad with
value-initialized (zero) elements. -/
def resizeVec (v : List ℕ) (n : ℕ) : List ℕ :=
  if n ≤ v.length then v.take n else v ++ List.replicate (n - v.length) 0

/-- The buffer-capacity step of `OnNewDepthFrame` (`gzrs_plugin.cc` lines
279–291): if the buffer length differs from `n`, resize it; a failing
allocation (the caught `std::bad_alloc`, modelled by `allocOk = false`)
yields `none` and leaves the caller to abandon the frame. -/
def ensureCapacity (n : ℕ) (allocOk : Bool) (buf : List ℕ) : Option (List ℕ) :=
  if buf.length ≠ n then
    if allocOk then some (resizeVec buf n) else none
  else
    some buf

/-- The conversion loop of `OnNewDepthFrame` (`gzrs_plugin.cc` lines 311–326)
as a functional fold: `encodeWrite d n m` writes `encodeSample d[i]` into
`m[i]` for every `i < n`, reading `d[i]` as `getD i 0`. -/
def encodeWrite (d : List ℚ) : ℕ → List ℕ → List ℕ
  | 0, m => m
  | n + 1, m => (encodeWrite d n m).set n (encodeSample (d.getD n 0))

/-- The float depth map as copied into the view message by
`set_data(depthDataFloat, sizeof(float) * imageSize)`: the first
`width * height` samples of the camera's depth buffer. -/
def viewMap (cam : DepthCamera) : List ℚ :=
  (List.range (cam.imageWidth * cam.imageHeight)).map
    (fun i => cam.depthData.getD i 0)

/-- Result of one depth-frame callback: the plugin state after the callback
and the messages published during it, tagged with their channel. -/
structure DepthFrameResult where
  state : PluginState
  publishes : List (String × ImageStamped)
  deriving DecidableEq, Inhabited

/-- The part of `RealSensePlugin::OnNewDepthFrame` past the capacity check
(`gzrs_plugin.cc` lines 293–341), given the sized buffer `buf0`: publish the
raw float map on the view channel (`R_FLOAT32`, step `width * ImageDepth()`,
`4 * imageSize` bytes), run the conversion loop into the device buffer, and
publish it on the depth channel (`L_INT16`, step `width * ImageDepth()`,
`2 * imageSize` bytes). `GetSimTime()` is called once per publish: `clock 0`
for the view message and `clock 1` for the device message. -/
def depthFrameBody (cam : DepthCamera) (clock : ℕ → ℕ) (buf0 : List ℕ) :
    DepthFrameResult :=
    { state := ⟨encodeWrite cam.depthData (cam.imageWidth * cam.imageHeight) buf0⟩
      publishes :=
        [("depth_view",
          { time := clock 0
            width := cam.imageWidth
            height := cam.imageHeight
            pixel_format := PixelFormat.R_FLOAT32
            step := cam.imageWidth * cam.imageDepth
            dataLen := 4 * (cam.imageWidth * cam.imageHeight)
            payload := ImagePayload.floats (viewMap cam) }),
         ("depth",
          { time := clock 1
            width := cam.imageWidth
            height := cam.imageHeight
            pixel_format := PixelFormat.L_INT16
            step := cam.imageWidth * cam.imageDepth
            dataLen := 2 * (cam.imageWidth * cam.imageHeight)
            payload := ImagePayload.u16s
              (encodeWrite cam.depthData (cam.imageWidth * cam.imageHeight) buf0) })] }

/-- `RealSensePlugin::OnNewDepthFrame` (`gzrs_plugin.cc` lines 272–341):
read `imageSize = width * height`, ensure the device buffer capacity —
returning early, with no publish, if the resize throws — then run
`depthFrameBody` on the sized buffer. -/
def OnNewDepthFrame (cam : DepthCamera) (clock : ℕ → ℕ) (allocOk : Bool)
    (s : PluginState) : DepthFrameResult :=
  match ensureCapacity (cam.imageWidth * cam.imageHeight) allocOk s.depthMap with
  | none => { state := s, publishes := [] }
  | some buf0 => depthFrameBody cam clock buf0

/-- `RealSensePlugin::OnNewFrame` (`gzrs_plugin.cc` lines 245–269): pack the
camera's raw frame with its native format and publish it on the given
channel. The single `GetSimTime()` call is `clock 0`. -/
def OnNewFrame (cam : Camera) (channel : String) (clock : ℕ → ℕ) :
    List (String × ImageStamped) :=
  [(channel,
    { time := clock 0
      width := cam.imageWidth
      height := cam.imageHeight
      pixel_format := PixelFormat.converted cam.imageFormat
      step := cam.imageWidth * cam.imageDepth
      dataLen := cam.imageDepth * cam.imageWidth * cam.imageHeight
      payload := ImagePayload.raw
        ((List.range (cam.imageDepth * cam.imageWidth * cam.imageHeight)).map
          (fun i => cam.imageData.getD i 0)) })]

/-- Result of `RealSensePlugin::Load`: whether the dispatcher reached the
bound ("ready") state, the advertised publisher topics (in advertise order),
and the `std::cerr` diagnostics. -/
structure LoadResult where
  ready : Bool
  publishers : List String
  log : List String
  deriving DecidableEq, Inhabited

/-- `RealSensePlugin::Load` (`gzrs_plugin.cc` lines 140–242), modelled at the
sensor-lookup interface boundary: each of the four camera handles either
resolves (`some`) or not (`none`). The source checks the handles in the order
depth, ired1, ired2, color; on the first missing one it logs which camera was
not found and returns before any publisher is advertised. Otherwise it
advertises the five stream topics under `~/<model>/rs/stream/` and connects
the frame callbacks. -/
def Load (modelName : String) (depthCam : Option DepthCamera)
    (ired1Cam ired2Cam colorCam : Option Camera) : LoadResult :=
  if depthCam.isNone then
    { ready := false, publishers := []
      log := ["RealSensePlugin: Depth Camera has not been found"] }
  else if ired1Cam.isNone then
    { ready := false, publishers := []
      log := ["RealSensePlugin: InfraRed Camera 1 has not been found"] }
  else if ired2Cam.isNone then
    { ready := false, publishers := []
      log := ["RealSensePlugin: InfraRed Camera 2 has not been found"] }
  else if colorCam.isNone then
    { ready := false, publishers := []
      log := ["RealSensePlugin: Color Camera has not been found"] }
  else
    { ready := true
      publishers :=
        ["~/" ++ modelName ++ "/rs/stream/" ++ "depth" ++ "_view",
         "~/" ++ modelName ++ "/rs/stream/" ++ "depth",
         "~/" ++ modelName ++ "/rs/stream/" ++ "infrared",
         "~/" ++ modelName ++ "/rs/stream/" ++ "infrared2",
         "~/" ++ modelName ++ "/rs/stream/" ++ "color"]
      log := [] }

/-- All messages published by one depth-frame callback carry one timestamp. -/
def samePublishTimes (r : DepthFrameResult) : Prop :=
  ∀ p ∈ r.publishes, ∀ q ∈ r.publishes, p.2.time = q.2.time

/-- The depth camera of the end-to-end scenario: 2×2 frame, float map
`[0.5, 11.0, -0.1, 9.999]`, 4 bytes per native (float) pixel. -/
def cam0 : DepthCamera :=
  { imageWidth := 2, imageHeight := 2, imageDepth := 4
    depthData := [1/2, 11, -1/10, 9999/1000] }

/-- A clock frozen at 42 for the duration of a callback. -/
def clock42 : ℕ → ℕ := fun _ => 42

/-- A clock that advances between successive `GetSimTime()` calls. -/
def clockTick : ℕ → ℕ := fun i => i

/-- Canonical form of the conversion-loop output on a sized buffer, used to
state what the loop computes. -/
def encodedMap (cam : DepthCamera) : List ℕ :=
  (List.range (cam.imageWidth * cam.imageHeight)).map
    (fun i => encodeSample (cam.depthData.getD i 0))

lemma resizeVec_length (v : List ℕ) (n : ℕ) : (resizeVec v n).length = n := by
  unfold resizeVec
  split
  · simp only [List.length_take]
    omega
  · simp only [List.length_append, List.length_replicate]
    omega

lemma ensureCapacity_some_length {n : ℕ} {ok : Bool} {buf b : List ℕ}
    (h : ensureCapacity n ok buf = some b) : b.length = n := by
  unfold ensureCapacity at h
  by_cases hl : buf.length ≠ n
  · rw [if_pos hl] at h
    cases ok
    · simp at h
    · simp only [if_pos] at h
      have hb : resizeVec buf n = b := by
        simpa using h
      rw [← hb]
      exact resizeVec_length buf n
  · rw [if_neg hl] at h
    push_neg at hl
    have hb : buf = b := by
      simpa using h
    rw [← hb]
    exact hl

lemma ensureCapacity_of_sized {n : ℕ} {buf : List ℕ} (ok : Bool)
    (h : buf.length = n) : ensureCapacity n ok buf = some buf := by
  unfold ensureCapacity
  rw [if_neg (not_ne_iff.2 h)]

lemma ensureCapacity_true (n : ℕ) (buf : List ℕ) :
    ensureCapacity n true buf =
      some (if buf.length ≠ n then resizeVec buf n else buf) := by
  unfold ensureCapacity
  by_cases hl : buf.length ≠ n <;> simp [hl]

lemma encodeWrite_length (d : List ℚ) (n : ℕ) (m : List ℕ) :
    (encodeWrite d n m).length = m.length := by
  induction n with
  | zero => rfl
  | succ k ih => simp [encodeWrite, ih]

lemma encodeWrite_getElem?_lt (d : List ℚ) {n i : ℕ} (m : List ℕ)
    (hi : i < n) (him : i < m.length) :
    (encodeWrite d n m)[i]? = some (encodeSample (d.getD i 0)) := by
  induction n with
  | zero => omega
  | succ k ih =>
    simp only [encodeWrite]
    by_cases hik : i = k
    · subst hik
      exact List.getElem?_set_eq_of_lt _ (by rw [encodeWrite_length]; exact him)
    · rw [List.getElem?_set_ne (by omega)]
      exact ih (by omega)

lemma encodeWrite_getElem?_ge (d : List ℚ) {n i : ℕ} (m : List ℕ)
    (hi : n ≤ i) :
    (encodeWrite d n m)[i]? = m[i]? := by
  induction n with
  | zero => rfl
  | succ k ih =>
    simp only [encodeWrite]
    rw [List.getElem?_set_ne (by omega)]
    exact ih (by omega)

/-- On a buffer already sized to `n`, the conversion loop computes exactly
the per-sample encoding of the first `n` source samples. -/
lemma encodeWrite_eq_map (d : List ℚ) {n : ℕ} {m : List ℕ} (hm : m.length = n) :
    encodeWrite d n m =
      (List.range n).map (fun i => encodeSample (d.getD i 0)) := by
  apply List.ext_getElem?
  intro i
  by_cases hi : i < n
  · rw [encodeWrite_getElem?_lt d m hi (by omega)]
    rw [List.getElem?_map, List.getElem?_range hi]
    rfl
  · have h1 : (encodeWrite d n m)[i]? = none := by
      rw [encodeWrite_getElem?_ge d m (by omega)]
      exact List.getElem?_eq_none (by omega)
    have h2 : ((List.range n).map (fun j => encodeSample (d.getD j 0)))[i]? = none :=
      List.getElem?_eq_none (by simp; omega)
    rw [h1, h2]

lemma OnNewDepthFrame_none {cam : DepthCamera} {clock : ℕ → ℕ} {ok : Bool}
    {s : PluginState}
    (h : ensureCapacity (cam.imageWidth * cam.imageHeight) ok s.depthMap = none) :
    OnNewDepthFrame cam clock ok s = { state := s, publishes := [] } := by
  unfold OnNewDepthFrame
  rw [h]

/-- Whenever the capacity step succeeds, the callback fully overwrites the
device buffer with the encoded map and performs exactly the two publishes. -/
lemma OnNewDepthFrame_some {cam : DepthCamera} {clock : ℕ → ℕ} {ok : Bool}
    {s : PluginState} {buf0 : List ℕ}
    (h : ensureCapacity (cam.imageWidth * cam.imageHeight) ok s.depthMap = some buf0) :
    OnNewDepthFrame cam clock ok s =
      { state := ⟨encodedMap cam⟩
        publishes :=
          [("depth_view",
            { time := clock 0
              width := cam.imageWidth
              height := cam.imageHeight
              pixel_format := PixelFormat.R_FLOAT32
              step := cam.imageWidth * cam.imageDepth
              dataLen := 4 * (cam.imageWidth * cam.imageHeight)
              payload := ImagePayload.floats (viewMap cam) }),
           ("depth",
            { time := clock 1
              width := cam.imageWidth
              height := cam.imageHeight
              pixel_format := PixelFormat.L_INT16
              step := cam.imageWidth * cam.imageDepth
              dataLen := 2 * (cam.imageWidth * cam.imageHeight)
              payload := ImagePayload.u16s (encodedMap cam) })] } := by
  unfold OnNewDepthFrame
  rw [h]
  show depthFrameBody cam clock buf0 = _
  unfold depthFrameBody
  rw [encodeWrite_eq_map cam.depthData (ensureCapacity_some_length h)]
  rfl

lemma encodeSample_half : encodeSample (1/2) = 500 :=
  encodeSample_val (by norm_num [DEPTH_NEAR_CLIP_M]) (by norm_num [DEPTH_FAR_CLIP_M])
    (by norm_num [DEPTH_SCALE_M])

lemma encodeSample_eleven : encodeSample 11 = 0 :=
  encodeSample_clipped (Or.inr (Or.inl (by norm_num [DEPTH_FAR_CLIP_M])))

lemma encodeSample_neg : encodeSample (-1/10) = 0 :=
  encodeSample_clipped (Or.inl (by norm_num [DEPTH_NEAR_CLIP_M]))

lemma encodeSample_9999 : encodeSample (9999/1000) = 9999 :=
  encodeSample_val (by norm_num [DEPTH_NEAR_CLIP_M]) (by norm_num [DEPTH_FAR_CLIP_M])
    (by norm_num [DEPTH_SCALE_M])

lemma cam0_range : List.range (cam0.imageWidth * cam0.imageHeight) = [0, 1, 2, 3] := by
  decide

lemma cam0_encodedMap : encodedMap cam0 = [500, 0, 0, 9999] := by
  unfold encodedMap
  rw [cam0_range]
  simp only [List.map_cons, List.map_nil]
  rw [show cam0.depthData.getD 0 0 = 1/2 from rfl,
    show cam0.depthData.getD 1 0 = 11 from rfl,
    show cam0.depthData.getD 2 0 = -1/10 from rfl,
    show cam0.depthData.getD 3 0 = 9999/1000 from rfl,
    encodeSample_half, encodeSample_eleven, encodeSample_neg, encodeSample_9999]

lemma cam0_viewMap : viewMap cam0 = [1/2, 11, -1/10, 9999/1000] := by
  unfold viewMap
  rw [cam0_range]
  rfl

lemma cam0_ensure :
    ensureCapacity (cam0.imageWidth * cam0.imageHeight) true
      (⟨[]⟩ : PluginState).depthMap = some [0, 0, 0, 0] := by
  decide

lemma cam0_buffer :
    (OnNewDepthFrame cam0 clock42 true ⟨[]⟩).state.depthMap = [500, 0, 0, 9999] := by
  rw [OnNewDepthFrame_some cam0_ensure]
  exact cam0_encodedMap

/-- Claim C2: on a 2×2 depth frame with float map `[0.5, 11.0, -0.1, 9.999]`,
one callback turns the device buffer into `[500, 0, 0, 9999]` and performs
exactly two publishes — the view message with the original floats, then the
device message with that buffer — both carrying the same timestamp. -/
theorem C2_end_to_end :
    (OnNewDepthFrame cam0 clock42 true ⟨[]⟩).state.depthMap = [500, 0, 0, 9999] ∧
    (OnNewDepthFrame cam0 clock42 true ⟨[]⟩).publishes.map Prod.fst =
      ["depth_view", "depth"] ∧
    ((OnNewDepthFrame cam0 clock42 true ⟨[]⟩).publishes.getD 0 default).2.payload =
      ImagePayload.floats [1/2, 11, -1/10, 9999/1000] ∧
    ((OnNewDepthFrame cam0 clock42 true ⟨[]⟩).publishes.getD 1 default).2.payload =
      ImagePayload.u16s [500, 0, 0, 9999] ∧
    ((OnNewDepthFrame cam0 clock42 true ⟨[]⟩).publishes.getD 0 default).2.time =
      ((OnNewDepthFrame cam0 clock42 true ⟨[]⟩).publishes.getD 1 default).2.time := by
  rw [OnNewDepthFrame_some cam0_ensure]
  refine ⟨cam0_encodedMap, rfl, ?_, ?_, rfl⟩
  · show ImagePayload.floats (viewMap cam0) = _
    rw [cam0_viewMap]
  · show ImagePayload.u16s (encodedMap cam0) = _
    rw [cam0_encodedMap]

/-- Claim C3: if any of the four required cameras fails to resolve during
`Load`, the plugin logs which camera is missing, stays unbound, and creates
zero publishers, regardless of the other cameras resolving. -/
theorem C3_missing_camera (modelName : String) (dc : Option DepthCamera)
    (i1 i2 cc : Option Camera)
    (h : dc = none ∨ i1 = none ∨ i2 = none ∨ cc = none) :
    (Load modelName dc i1 i2 cc).ready = false ∧
    (Load modelName dc i1 i2 cc).publishers = [] ∧
    ((dc = none ∧ (Load modelName dc i1 i2 cc).log =
        ["RealSensePlugin: Depth Camera has not been found"]) ∨
     (i1 = none ∧ (Load modelName dc i1 i2 cc).log =
        ["RealSensePlugin: InfraRed Camera 1 has not been found"]) ∨
     (i2 = none ∧ (Load modelName dc i1 i2 cc).log =
        ["RealSensePlugin: InfraRed Camera 2 has not been found"]) ∨
     (cc = none ∧ (Load modelName dc i1 i2 cc).log =
        ["RealSensePlugin: Color Camera has not been found"])) := by
  unfold Load
  rcases dc with _ | d
  · simp
  · rcases i1 with _ | a
    · simp
    · rcases i2 with _ | b
      · simp
      · rcases cc with _ | c
        · simp
        · simp at h

/-- A concrete color/infrared camera used in witnesses. -/
def camC : Camera :=
  { imageWidth := 2, imageHeight := 2, imageDepth := 3
    imageFormat := "R8G8B8", imageData := [] }

theorem C3_missing_camera_witness :
    (Load "rs_camera" (some cam0) (some camC) (some camC) none).ready = false ∧
    (Load "rs_camera" (some cam0) (some camC) (some camC) none).publishers = [] ∧
    ((some cam0 = none ∧ (Load "rs_camera" (some cam0) (some camC) (some camC) none).log =
        ["RealSensePlugin: Depth Camera has not been found"]) ∨
     (some camC = none ∧ (Load "rs_camera" (some cam0) (some camC) (some camC) none).log =
        ["RealSensePlugin: InfraRed Camera 1 has not been found"]) ∨
     (some camC = none ∧ (Load "rs_camera" (some cam0) (some camC) (some camC) none).log =
        ["RealSensePlugin: InfraRed Camera 2 has not been found"]) ∨
     ((none : Option Camera) = none ∧
        (Load "rs_camera" (some cam0) (some camC) (some camC) none).log =
          ["RealSensePlugin: Color Camera has not been found"])) :=
  C3_missing_camera "rs_camera" (some cam0) (some camC) (some camC) none
    (Or.inr (Or.inr (Or.inr rfl)))

/-- Claim C4: when the buffer resize fails, the previous buffer is retained,
the frame is abandoned with zero publishes, and a later frame whose
allocation succeeds processes normally at the new size. -/
theorem C4_alloc_failure (cam : DepthCamera) (clock clock' : ℕ → ℕ)
    (s : PluginState)
    (h : s.depthMap.length ≠ cam.imageWidth * cam.imageHeight) :
    (OnNewDepthFrame cam clock false s).state = s ∧
    (OnNewDepthFrame cam clock false s).publishes = [] ∧
    (OnNewDepthFrame cam clock' true
      (OnNewDepthFrame cam clock false s).state).publishes.length = 2 ∧
    (OnNewDepthFrame cam clock' true
        (OnNewDepthFrame cam clock false s).state).state.depthMap.length =
      cam.imageWidth * cam.imageHeight := by
  have hnone : ensureCapacity (cam.imageWidth * cam.imageHeight) false s.depthMap
      = none := by
    unfold ensureCapacity
    rw [if_pos h]
    rfl
  have h1 : OnNewDepthFrame cam clock false s = { state := s, publishes := [] } :=
    OnNewDepthFrame_none hnone
  have h2 : (OnNewDepthFrame cam clock false s).state = s := by rw [h1]
  refine ⟨h2, by rw [h1], ?_, ?_⟩
  · rw [h2, OnNewDepthFrame_some (ensureCapacity_true _ s.depthMap)]
    rfl
  · rw [h2, OnNewDepthFrame_some (ensureCapacity_true _ s.depthMap)]
    show (encodedMap cam).length = _
    unfold encodedMap
    simp

theorem C4_alloc_failure_witness :
    (OnNewDepthFrame cam0 clockTick false ⟨[7]⟩).state = ⟨[7]⟩ ∧
    (OnNewDepthFrame cam0 clockTick false ⟨[7]⟩).publishes = [] ∧
    (OnNewDepthFrame cam0 clock42 true
      (OnNewDepthFrame cam0 clockTick false ⟨[7]⟩).state).publishes.length = 2 ∧
    (OnNewDepthFrame cam0 clock42 true
        (OnNewDepthFrame cam0 clockTick false ⟨[7]⟩).state).state.depthMap.length =
      cam0.imageWidth * cam0.imageHeight :=
  C4_alloc_failure cam0 clockTick clock42 ⟨[7]⟩ (by decide)

/-- Claim C5, counterexample: `OnNewDepthFrame` samples `GetSimTime()` once
per publish (lines 297 and 329), not once per frame; under a clock that
advances between the two calls, the view and device messages carry different
timestamps, refuting the claim that the timestamp is captured once. -/
theorem C5_counterexample :
    ¬ samePublishTimes (OnNewDepthFrame cam0 clockTick true ⟨[]⟩) := by
  rw [OnNewDepthFrame_some cam0_ensure]
  intro hall
  have h := hall _ (List.Mem.head _) _ (List.Mem.tail _ (List.Mem.head _))
  exact absurd h (by decide)

/-- Claim C5 as amended: the simulation time is sampled once per publish
(twice per depth frame); the two published messages carry the same timestamp
exactly when both samples return the same value — in particular whenever the
simulation clock does not advance within the callback. -/
theorem C5_stamp_amended (cam : DepthCamera) (clock : ℕ → ℕ) (ok : Bool)
    (s : PluginState) (h : clock 0 = clock 1) :
    samePublishTimes (OnNewDepthFrame cam clock ok s) := by
  unfold samePublishTimes
  cases hec : ensureCapacity (cam.imageWidth * cam.imageHeight) ok s.depthMap with
  | none =>
    rw [OnNewDepthFrame_none hec]
    intro p hp q hq
    simp at hp
  | some b =>
    rw [OnNewDepthFrame_some hec]
    intro p hp q hq
    simp only [List.mem_cons, List.mem_singleton, List.not_mem_nil, or_false] at hp hq
    rcases hp with hp | hp <;> rcases hq with hq | hq <;> subst hp <;> subst hq <;>
      simp [h]

theorem C5_stamp_amended_witness :
    samePublishTimes (OnNewDepthFrame cam0 clock42 true ⟨[]⟩) :=
  C5_stamp_amended cam0 clock42 true ⟨[]⟩ rfl

/-- Claim C6: after any successfully allocated depth frame the single device
buffer has length `width * height` (so every encode runs on a buffer of
exactly that size), and the result of the callback depends only on the first
`width * height` samples of the source float map and on no prior buffer
contents — the loop neither reads nor writes past `width * height`. -/
theorem C6_buffer_invariant (cam cam' : DepthCamera) (clock clock' : ℕ → ℕ)
    (s s' : PluginState)
    (hw : cam'.imageWidth = cam.imageWidth) (hh : cam'.imageHeight = cam.imageHeight)
    (hagree : ∀ i < cam.imageWidth * cam.imageHeight,
      cam'.depthData.getD i 0 = cam.depthData.getD i 0) :
    (OnNewDepthFrame cam clock true s).state.depthMap.length =
      cam.imageWidth * cam.imageHeight ∧
    (OnNewDepthFrame cam' clock' true s').state.depthMap =
      (OnNewDepthFrame cam clock true s).state.depthMap := by
  rw [OnNewDepthFrame_some (ensureCapacity_true _ s.depthMap),
    OnNewDepthFrame_some (ensureCapacity_true _ s'.depthMap)]
  constructor
  · show (encodedMap cam).length = _
    unfold encodedMap
    simp
  · show encodedMap cam' = encodedMap cam
    unfold encodedMap
    rw [hw, hh]
    apply List.map_congr_left
    intro i hi
    rw [hagree i (List.mem_range.1 hi)]

/-- A camera agreeing with `cam0` on the first four samples but with junk
beyond them, used to witness that the encode loop never reads past
`width * height`. -/
def cam0ext : DepthCamera :=
  { imageWidth := 2, imageHeight := 2, imageDepth := 4
    depthData := [1/2, 11, -1/10, 9999/1000, 55] }

theorem C6_buffer_invariant_witness :
    (OnNewDepthFrame cam0 clock42 true ⟨[]⟩).state.depthMap.length =
      cam0.imageWidth * cam0.imageHeight ∧
    (OnNewDepthFrame cam0ext clockTick true ⟨[1, 2]⟩).state.depthMap =
      (OnNewDepthFrame cam0 clock42 true ⟨[]⟩).state.depthMap :=
  C6_buffer_invariant cam0 cam0ext clock42 clockTick ⟨[]⟩ ⟨[1, 2]⟩ rfl rfl
    (fun i hi => by
      have hi4 : i < 4 := hi
      interval_cases i <;> rfl)

/-- Claim C7: a second `ensureCapacity` with the same size is a no-op on a
buffer the first call sized: it returns the buffer unchanged, and does so for
any allocator outcome `ok'` — in particular `ok' = false` — so no
reallocation can be attempted. -/
theorem C7_ensure_idempotent (n : ℕ) (ok ok' : Bool) (buf b : List ℕ)
    (h : ensureCapacity n ok buf = some b) :
    ensureCapacity n ok' b = some b :=
  ensureCapacity_of_sized ok' (ensureCapacity_some_length h)

theorem C7_ensure_idempotent_witness :
    ensureCapacity 4 false [0, 0, 0, 0] = some [0, 0, 0, 0] :=
  C7_ensure_idempotent 4 true false [] [0, 0, 0, 0] (by decide)

/-- Claim C8: the depth encoder is deterministic — re-running the callback on
the same float map (the buffer now already sized) reproduces the same device
buffer, regardless of the clock or of the allocator oracle of the second
run; the transform has no hidden state beyond buffer sizing. -/
theorem C8_deterministic (cam : DepthCamera) (clock clock' : ℕ → ℕ) (ok : Bool)
    (s : PluginState) :
    (OnNewDepthFrame cam clock' ok
        (OnNewDepthFrame cam clock true s).state).state.depthMap =
      (OnNewDepthFrame cam clock true s).state.depthMap := by
  rw [OnNewDepthFrame_some (ensureCapacity_true _ s.depthMap)]
  show (OnNewDepthFrame cam clock' ok ⟨encodedMap cam⟩).state.depthMap = encodedMap cam
  have hlen : (encodedMap cam).length = cam.imageWidth * cam.imageHeight := by
    unfold encodedMap
    simp
  rw [OnNewDepthFrame_some (s := ⟨encodedMap cam⟩)
    (@ensureCapacity_of_sized (cam.imageWidth * cam.imageHeight) (encodedMap cam) ok hlen)]

/-- Claim C9: the published device depth message declares the 16-bit
single-channel format and a payload of `2 * width * height` bytes, but its
stride is `width * ImageDepth()` — the camera's native bytes-per-pixel — so
the declared stride disagrees with the payload's actual row length whenever
`ImageDepth() ≠ 2`. -/
theorem C9_stride_mismatch (cam : DepthCamera) (clock : ℕ → ℕ) (s : PluginState)
    (hd : cam.imageDepth ≠ 2) (hw : 0 < cam.imageWidth) :
    ((OnNewDepthFrame cam clock true s).publishes.getD 1 default).2.pixel_format =
      PixelFormat.L_INT16 ∧
    ((OnNewDepthFrame cam clock true s).publishes.getD 1 default).2.dataLen =
      2 * (cam.imageWidth * cam.imageHeight) ∧
    ((OnNewDepthFrame cam clock true s).publishes.getD 1 default).2.step =
      cam.imageWidth * cam.imageDepth ∧
    ((OnNewDepthFrame cam clock true s).publishes.getD 1 default).2.step ≠
      2 * cam.imageWidth := by
  rw [OnNewDepthFrame_some (ensureCapacity_true _ s.depthMap)]
  refine ⟨rfl, rfl, rfl, ?_⟩
  show cam.imageWidth * cam.imageDepth ≠ 2 * cam.imageWidth
  intro heq
  exact hd (Nat.eq_of_mul_eq_mul_left hw (heq.trans (Nat.mul_comm 2 cam.imageWidth)))

theorem C9_stride_mismatch_witness :
    ((OnNewDepthFrame cam0 clock42 true ⟨[]⟩).publishes.getD 1 default).2.pixel_format =
      PixelFormat.L_INT16 ∧
    ((OnNewDepthFrame cam0 clock42 true ⟨[]⟩).publishes.getD 1 default).2.dataLen =
      2 * (cam0.imageWidth * cam0.imageHeight) ∧
    ((OnNewDepthFrame cam0 clock42 true ⟨[]⟩).publishes.getD 1 default).2.step =
      cam0.imageWidth * cam0.imageDepth ∧
    ((OnNewDepthFrame cam0 clock42 true ⟨[]⟩).publishes.getD 1 default).2.step ≠
      2 * cam0.imageWidth :=
  C9_stride_mismatch cam0 clock42 ⟨[]⟩ (by decide) (by decide)

/-- Claim C10: after the encode loop of any depth-frame callback, every
sample of the device buffer is 0 or lies in `[300, 10000]`; in particular
the 16-bit cast never wraps. -/
theorem C10_range (cam : DepthCamera) (clock : ℕ → ℕ) (s : PluginState) :
    ∀ x ∈ (OnNewDepthFrame cam clock true s).state.depthMap,
      x = 0 ∨ (300 ≤ x ∧ x ≤ 10000) := by
  rw [OnNewDepthFrame_some (ensureCapacity_true _ s.depthMap)]
  intro x hx
  have hx' : x ∈ (List.range (cam.imageWidth * cam.imageHeight)).map
      (fun i => encodeSample (cam.depthData.getD i 0)) := hx
  obtain ⟨i, _, rfl⟩ := List.mem_map.1 hx'
  exact encodeSample_range _

theorem C10_range_witness :
    (500 : ℕ) = 0 ∨ (300 ≤ (500 : ℕ) ∧ (500 : ℕ) ≤ 10000) :=
  C10_range cam0 clock42 ⟨[]⟩ 500 (by rw [cam0_buffer]; decide)

end GzRS
